import Mathlib

/-!
Verification of the channel/message/pipeline backend (open-webui).

This file gives a shallow embedding of the relevant parts of
`backend/open_webui/models/channels.py`, `backend/open_webui/models/messages.py`,
`backend/open_webui/routers/channels.py` and `backend/open_webui/routers/pipelines.py`.
Database tables become lists of rows inside an explicit `DB` state; each
repository method becomes a pure function from a `DB` (plus the
nondeterministic inputs the Python code draws from the environment: fresh
uuids and `time.time_ns()` timestamps, passed here as explicit arguments) to
an updated `DB` and a result.  Fallible operations (Python code that can
raise) return `Except`.
-/

/-- A flat JSON object (string keys to opaque string values); used for the
free-form `data` / `meta` columns and for pipeline payloads. -/
abbrev JsonObj := List (String × String)

/-- One per-permission entry of an `access_control` JSON document:
`access_control[permission] = {"group_ids": [...], "user_ids": [...]}`. -/
structure ACEntry where
  group_ids : List String
  user_ids : List String
deriving DecidableEq, Repr

/-- An `access_control` JSON document: permission name to entry.  The SQL
values NULL and the JSON string "null" (both treated as public by
`_has_permission`) are both modelled as `Option.none` at the column. -/
abbrev AccessControl := List (String × ACEntry)

/-- Row of the `channel` table (models/channels.py, class Channel). -/
structure ChannelRow where
  id : String
  user_id : String
  type : Option String
  name : String
  description : Option String
  is_private : Option Bool
  data : Option JsonObj
  meta : Option JsonObj
  access_control : Option AccessControl
  created_at : Nat
  updated_at : Nat
  updated_by : Option String
  archived_at : Option Nat
  archived_by : Option String
  deleted_at : Option Nat
  deleted_by : Option String
deriving DecidableEq, Repr

/-- Row of the `channel_member` table (models/channels.py, class ChannelMember). -/
structure ChannelMemberRow where
  id : String
  channel_id : String
  user_id : String
  role : Option String
  status : Option String
  is_active : Bool
  is_channel_muted : Bool
  is_channel_pinned : Bool
  data : Option JsonObj
  meta : Option JsonObj
  invited_at : Option Nat
  invited_by : Option String
  joined_at : Option Nat
  left_at : Option Nat
  last_read_at : Option Nat
  created_at : Option Nat
  updated_at : Option Nat
deriving DecidableEq, Repr

/-- Row of the `message` table (models/messages.py, class Message). -/
structure MessageRow where
  id : String
  user_id : String
  channel_id : Option String
  reply_to_id : Option String
  parent_id : Option String
  is_pinned : Bool
  pinned_at : Option Nat
  pinned_by : Option String
  content : String
  data : Option JsonObj
  meta : Option JsonObj
  created_at : Nat
  updated_at : Nat
deriving DecidableEq, Repr

/-- Row of the `message_reaction` table (models/messages.py, class MessageReaction). -/
structure ReactionRow where
  id : String
  user_id : String
  message_id : String
  name : String
  created_at : Nat
deriving DecidableEq, Repr

/-- Modelled from the spec: the user store is an external collaborator
(models/users.py is not part of the sources); only the fields the message
responses read (`id`, `name`) are kept. -/
structure UserRow where
  id : String
  name : String
deriving DecidableEq, Repr

/-- Modelled from the spec: the group store is an external collaborator
(models/groups.py is not part of the sources); the spec describes it as
exposing each group's member user-id list. -/
structure GroupRow where
  id : String
  user_ids : List String
deriving DecidableEq, Repr

/-- The whole persistent state: one list of rows per table. -/
structure DB where
  channels : List ChannelRow
  members : List ChannelMemberRow
  messages : List MessageRow
  reactions : List ReactionRow
  users : List UserRow
  groups : List GroupRow
deriving DecidableEq, Repr

/-- ChannelForm (models/channels.py). -/
structure ChannelForm where
  name : String
  description : Option String
  is_private : Option Bool
  data : Option JsonObj
  meta : Option JsonObj
  access_control : Option AccessControl
  group_ids : Option (List String)
  user_ids : Option (List String)
deriving DecidableEq, Repr

/-- CreateChannelForm (models/channels.py): ChannelForm plus a type field. -/
structure CreateChannelForm extends ChannelForm where
  type : Option String
deriving DecidableEq, Repr

/-- MessageForm (models/messages.py). -/
structure MessageForm where
  temp_id : Option String
  content : String
  reply_to_id : Option String
  parent_id : Option String
  data : Option JsonObj
  meta : Option JsonObj
deriving DecidableEq, Repr

/-- Modelled from the spec: `Groups.get_group_user_ids_by_id` returns the
member user ids of a group (empty for an unknown group id). -/
def groups_get_group_user_ids_by_id (db : DB) (gid : String) : List String :=
  ((db.groups.find? (fun g => g.id == gid)).map (fun g => g.user_ids)).getD []

/-- Modelled from the spec: `Groups.get_groups_by_member_id` returns the
groups that contain the user as a member. -/
def groups_get_groups_by_member_id (db : DB) (uid : String) : List GroupRow :=
  db.groups.filter (fun g => g.user_ids.contains uid)

/-- All membership rows of one channel. -/
def channel_member_rows (db : DB) (cid : String) : List ChannelMemberRow :=
  db.members.filter (fun m => m.channel_id == cid)

/-- Replace the first element satisfying `p` (SQLAlchemy `.first()` followed by
attribute mutation touches exactly one row). -/
def update_first (p : α → Bool) (f : α → α) : List α → List α
  | [] => []
  | x :: xs => if p x then f x :: xs else x :: update_first p f xs

/-- ChannelTable._collect_unique_user_ids: the set
`{invited_by} ∪ user_ids ∪ ⋃ (members of each group)`; a Python `set`, here a
deduplicated list. -/
def collect_unique_user_ids (db : DB) (invited_by : String)
    (user_ids : Option (List String)) (group_ids : Option (List String)) : List String :=
  ((user_ids.getD []) ++ [invited_by] ++
    ((group_ids.getD []).map (fun gid => groups_get_group_user_ids_by_id db gid)).flatten).dedup

/-- ChannelTable._create_membership_models: one fresh membership row per user
id, `status="joined"`, `is_active=True`.  `member_id_of` supplies the fresh
uuid of each row, `now` the shared `time.time_ns()` value. -/
def create_membership_models (channel_id invited_by : String) (user_ids : List String)
    (member_id_of : String → String) (now : Nat) : List ChannelMemberRow :=
  user_ids.map (fun uid =>
    { id := member_id_of uid
      channel_id := channel_id
      user_id := uid
      role := none
      status := some "joined"
      is_active := true
      is_channel_muted := false
      is_channel_pinned := false
      data := none
      meta := none
      invited_at := some now
      invited_by := some invited_by
      joined_at := some now
      left_at := none
      last_read_at := some now
      created_at := some now
      updated_at := some now })

/-- ChannelTable.insert_new_channel: builds the channel row (note
`"name": form_data.name.lower()` and `"type": form_data.type if form_data.type
else None`), and for `group`/`dm` types also the membership rows for the
collected user set; both are committed together. -/
def insert_new_channel (db : DB) (form : CreateChannelForm) (user_id : String)
    (new_id : String) (member_id_of : String → String) (now : Nat) : DB × ChannelRow :=
  let channel : ChannelRow :=
    { id := new_id
      user_id := user_id
      type := match form.type with
              | none => none
              | some s => if s = "" then none else some s
      name := form.name.toLower
      description := form.description
      is_private := form.is_private
      data := form.data
      meta := form.meta
      access_control := form.access_control
      created_at := now
      updated_at := now
      updated_by := none
      archived_at := none
      archived_by := none
      deleted_at := none
      deleted_by := none }
  if form.type == some "group" || form.type == some "dm" then
    let users := collect_unique_user_ids db user_id form.user_ids form.group_ids
    let memberships := create_membership_models new_id user_id users member_id_of now
    ({ db with channels := db.channels ++ [channel], members := db.members ++ memberships },
     channel)
  else
    ({ db with channels := db.channels ++ [channel] }, channel)

/-- The `access_control[permission]["group_ids"]` JSON path; a missing
document or key yields SQL NULL, whose `contains` test is never true, modelled
as the empty list. -/
def ac_permission_group_ids (ac : Option AccessControl) (perm : String) : List String :=
  match ac with
  | none => []
  | some entries =>
    match entries.find? (fun e => e.1 == perm) with
    | some e => e.2.group_ids
    | none => []

/-- ChannelTable._has_permission, as a per-channel predicate: with no filter
input the query is unrestricted; otherwise a channel passes when its
access-control document is null (public), the caller owns it, or one of the
caller's group ids occurs in the per-permission group-id allowlist. -/
def has_channel_permission (user_id : Option String) (group_ids : List String)
    (perm : String) (c : ChannelRow) : Bool :=
  if user_id.isNone && group_ids.isEmpty then true
  else
    c.access_control.isNone
    || (match user_id with
        | some u => c.user_id == u
        | none => false)
    || group_ids.any (fun gid => (ac_permission_group_ids c.access_control perm).contains gid)

/-- ChannelTable.get_channels_by_user_id: the JOIN with `channel_member`
yields each group/dm channel once per matching membership row; under the
one-row-per-(channel,user) invariant that is at most once, so it is modelled
with `List.any` over the membership table. -/
def get_channels_by_user_id (db : DB) (user_id : String) : List ChannelRow :=
  let user_group_ids := (groups_get_groups_by_member_id db user_id).map (fun g => g.id)
  let membership_channels := db.channels.filter (fun c =>
    c.deleted_at.isNone && c.archived_at.isNone &&
    (c.type == some "group" || c.type == some "dm") &&
    db.members.any (fun m => m.channel_id == c.id && m.user_id == user_id && m.is_active))
  let standard_channels := db.channels.filter (fun c =>
    c.deleted_at.isNone && c.archived_at.isNone &&
    (c.type.isNone || c.type == some "" || (c.type != some "group" && c.type != some "dm")) &&
    has_channel_permission (some user_id) user_group_ids "read" c)
  membership_channels ++ standard_channels

/-- The SQL condition of `get_dm_channel_by_user_ids`' grouped subquery for
one channel: the channel occurs in the grouped member table (it has at least
one membership row), has exactly `|unique_user_ids|` membership rows, and all
of them belong to `unique_user_ids`. -/
def dm_member_condition (db : DB) (uniq : List String) (c : ChannelRow) : Bool :=
  let rows := channel_member_rows db c.id
  !rows.isEmpty && rows.length == uniq.length &&
    rows.countP (fun m => uniq.contains m.user_id) == uniq.length

/-- ChannelTable.get_dm_channel_by_user_ids: first channel of type `dm` whose
id lies in the grouped subquery. -/
def get_dm_channel_by_user_ids (db : DB) (user_ids : List String) : Option ChannelRow :=
  let uniq := user_ids.dedup
  db.channels.find? (fun c => dm_member_condition db uniq c && c.type == some "dm")

/-- ChannelTable.update_member_active_status: flips `is_active` on the first
matching membership row, `False` when none exists. -/
def update_member_active_status (db : DB) (channel_id user_id : String)
    (is_active : Bool) (now : Nat) : DB × Bool :=
  match db.members.find? (fun m => m.channel_id == channel_id && m.user_id == user_id) with
  | none => (db, false)
  | some _ =>
    ({ db with members :=
        (update_first (fun m => m.channel_id == channel_id && m.user_id == user_id)
          (fun m => { m with is_active := is_active, updated_at := some now }) db.members) },
     true)

/-- ChannelTable.update_channel_by_id: overwrites the listed columns with the
form values verbatim (in particular the name is NOT lowercased here). -/
def update_channel_by_id (db : DB) (id : String) (form : ChannelForm) (now : Nat) :
    DB × Option ChannelRow :=
  match db.channels.find? (fun c => c.id == id) with
  | none => (db, none)
  | some c =>
    let c2 := { c with
      name := form.name
      description := form.description
      is_private := form.is_private
      data := form.data
      meta := form.meta
      access_control := form.access_control
      updated_at := now }
    ({ db with channels := update_first (fun x => x.id == id) (fun _ => c2) db.channels },
     some c2)

/-- routers/channels.py create_new_channel, after the permission gates: for a
`dm` form the member set `[user.id, *form_data.user_ids]` is first looked up
(splatting a `None` user_ids raises, modelled as `.error`); an existing dm
channel is reactivated for the caller and returned, otherwise (and for every
non-dm form) a fresh channel is inserted. -/
def create_new_channel_request (db : DB) (user_id : String) (form : CreateChannelForm)
    (new_id : String) (member_id_of : String → String) (now : Nat) :
    Except Unit (DB × ChannelRow) :=
  if form.type == some "dm" then
    match form.user_ids with
    | none => .error ()
    | some us =>
      match get_dm_channel_by_user_ids db (user_id :: us) with
      | some existing =>
        .ok ((update_member_active_status db existing.id user_id true now).1, existing)
      | none => .ok (insert_new_channel db form user_id new_id member_id_of now)
  else
    .ok (insert_new_channel db form user_id new_id member_id_of now)

/-- UserNameResponse (the user payload embedded in message responses). -/
structure UserNameResponse where
  id : String
  name : String
deriving DecidableEq, Repr

/-- One aggregated emoji group of `get_reactions_by_message_id`. -/
structure ReactionsGroup where
  name : String
  users : List UserNameResponse
  count : Nat
deriving DecidableEq, Repr

/-- MessageUserResponse: a message row plus its (optional) author payload. -/
structure MessageUserResponse where
  message : MessageRow
  user : Option UserNameResponse
deriving DecidableEq, Repr

/-- MessageReplyToResponse: MessageUserResponse plus the (already truncated)
reply-to message; pydantic coerces a recursively built full response down to
these fields. -/
structure MessageReplyToResponse where
  message : MessageRow
  user : Option UserNameResponse
  reply_to_message : Option MessageUserResponse
deriving DecidableEq, Repr

/-- MessageResponse: the full per-message detail payload. -/
structure MessageResponse where
  message : MessageRow
  user : Option UserNameResponse
  reply_to_message : Option MessageUserResponse
  latest_reply_at : Option Nat
  reply_count : Nat
  reactions : List ReactionsGroup
deriving DecidableEq, Repr

/-- Truncation of a full response to the fields of MessageUserResponse
(pydantic drops the extra keys of the dumped model). -/
def to_message_user_response (r : MessageResponse) : MessageUserResponse :=
  { message := r.message, user := r.user }

/-- Ordering used by `order_by(Message.created_at.desc())`. -/
def created_desc (a b : MessageRow) : Prop := b.created_at ≤ a.created_at

instance : DecidableRel created_desc := fun a b => Nat.decLe b.created_at a.created_at

instance : IsTotal MessageRow created_desc :=
  ⟨fun a b => (Nat.le_total b.created_at a.created_at).elim Or.inl Or.inr⟩

instance : IsTrans MessageRow created_desc :=
  ⟨fun _ _ _ hab hbc => Nat.le_trans hbc hab⟩

/-- Newest-first sort of message rows (a deterministic stable sort, as Python
sorting and the SQL ORDER BY both produce). -/
def sort_by_created_at_desc (l : List MessageRow) : List MessageRow :=
  List.insertionSort created_desc l

/-- MessageTable.get_reactions_by_message_id: inner join with the user table,
then aggregation into per-emoji groups in first-seen order. -/
def get_reactions_by_message_id (db : DB) (id : String) : List ReactionsGroup :=
  let results := (db.reactions.filter (fun r => r.message_id == id)).filterMap
    (fun r => (db.users.find? (fun u => u.id == r.user_id)).map (fun u => (r, u)))
  results.foldl
    (fun acc ru =>
      if acc.any (fun g => g.name == ru.1.name) then
        acc.map (fun g =>
          if g.name == ru.1.name then
            { g with users := g.users ++ [{ id := ru.2.id, name := ru.2.name }],
                     count := g.count + 1 }
          else g)
      else acc ++ [{ name := ru.1.name,
                     users := [{ id := ru.2.id, name := ru.2.name }],
                     count := 1 }])
    []

/-- The raw thread replies of a message: rows with `parent_id = id`,
newest-first (MessageTable.get_thread_replies_by_message_id, before
enrichment). -/
def get_thread_replies_raw (db : DB) (id : String) : List MessageRow :=
  sort_by_created_at_desc (db.messages.filter (fun m => m.parent_id == some id))

/-- MessageTable.get_message_by_id: assembles message, author, recursively
resolved reply-to message, reactions and thread-reply statistics.  The Python
method recurses unboundedly through `reply_to_id` chains; `fuel` bounds that
recursion depth here (`fuel = 0` answers `none`). -/
def get_message_by_id (db : DB) : Nat → String → Option MessageResponse
  | 0, _ => none
  | fuel+1, id =>
    match db.messages.find? (fun m => m.id == id) with
    | none => none
    | some m =>
      let thread_replies := (get_thread_replies_raw db id).map (fun m2 =>
        ({ message := m2
           user := none
           reply_to_message :=
             (m2.reply_to_id.bind (get_message_by_id db fuel)).map to_message_user_response }
          : MessageReplyToResponse))
      some
        { message := m
          user := (db.users.find? (fun u => u.id == m.user_id)).map
            (fun u => { id := u.id, name := u.name })
          reply_to_message :=
            (m.reply_to_id.bind (get_message_by_id db fuel)).map to_message_user_response
          latest_reply_at := thread_replies.head?.map (fun r => r.message.created_at)
          reply_count := thread_replies.length
          reactions := get_reactions_by_message_id db id }

/-- MessageTable.get_thread_replies_by_message_id: each reply enriched with
its resolved reply-to message (no author payload is attached here). -/
def get_thread_replies_by_message_id (db : DB) (fuel : Nat) (id : String) :
    List MessageReplyToResponse :=
  (get_thread_replies_raw db id).map (fun m =>
    { message := m
      user := none
      reply_to_message :=
        (m.reply_to_id.bind (get_message_by_id db fuel)).map to_message_user_response })

/-- The page of thread replies returned by the query inside
`get_messages_by_parent_id`: replies of `parent_id` in `channel_id`,
newest-first, after OFFSET `skip` and LIMIT `limit`. -/
def thread_page (db : DB) (channel_id parent_id : String) (skip limit : Nat) :
    List MessageRow :=
  ((sort_by_created_at_desc (db.messages.filter (fun m =>
      m.channel_id == some channel_id && m.parent_id == some parent_id))).drop skip).take limit

/-- MessageTable.get_messages_by_parent_id: `[]` when the parent does not
exist; otherwise the reply page, with the parent row appended when the page
holds fewer than `limit` replies, each element enriched with its reply-to
message. -/
def get_messages_by_parent_id (db : DB) (fuel : Nat) (channel_id parent_id : String)
    (skip limit : Nat) : List MessageReplyToResponse :=
  match db.messages.find? (fun m => m.id == parent_id) with
  | none => []
  | some parent =>
    let page := thread_page db channel_id parent_id skip limit
    let all := if page.length < limit then page ++ [parent] else page
    all.map (fun m =>
      { message := m
        user := none
        reply_to_message :=
          (m.reply_to_id.bind (get_message_by_id db fuel)).map to_message_user_response })

/-- The exact-tuple test of the reaction table. -/
def reaction_tuple (mid uid name : String) (r : ReactionRow) : Bool :=
  r.message_id == mid && r.user_id == uid && r.name == name

/-- MessageTable.add_reaction_to_message: returns an existing exact-tuple row
unchanged, otherwise inserts a fresh row. -/
def add_reaction_to_message (db : DB) (mid uid name : String) (rid : String) (now : Nat) :
    DB × Option ReactionRow :=
  match db.reactions.find? (reaction_tuple mid uid name) with
  | some r => (db, some r)
  | none =>
    let r : ReactionRow :=
      { id := rid, user_id := uid, message_id := mid, name := name, created_at := now }
    ({ db with reactions := db.reactions ++ [r] }, some r)

/-- MessageTable.remove_reaction_by_id_and_user_id_and_name: deletes by exact
tuple and reports success unconditionally. -/
def remove_reaction_by_id_and_user_id_and_name (db : DB) (mid uid name : String) :
    DB × Bool :=
  ({ db with reactions := db.reactions.filter (fun r => !(reaction_tuple mid uid name r)) },
   true)

/-- MessageTable.delete_message_by_id: removes the message row and every
reaction row referencing it in the same commit; replies are untouched. -/
def delete_message_by_id (db : DB) (id : String) : DB × Bool :=
  ({ db with
      messages := db.messages.filter (fun m => !(m.id == id))
      reactions := db.reactions.filter (fun r => !(r.message_id == id)) },
   true)

/-- Python exceptions that escape the repository layer. -/
inductive RepoError where
  | attributeError
deriving DecidableEq, Repr

/-- The `{**existing, **patch}` dict merge: values of common keys are taken
from the patch (keeping the existing key order), new keys are appended. -/
def json_merge (a b : JsonObj) : JsonObj :=
  (a.map (fun kv =>
    match b.find? (fun kv2 => kv2.1 == kv.1) with
    | some kv2 => kv2
    | none => kv))
  ++ b.filter (fun kv2 => !(a.any (fun kv => kv.1 == kv2.1)))

/-- MessageTable.update_message_by_id: `db.get` is dereferenced without a
None-check (`message.content = ...`), so a missing id raises AttributeError;
on a present row, content is replaced and data/meta dict-merged. -/
def update_message_by_id (db : DB) (id : String) (form : MessageForm) (now : Nat) :
    Except RepoError (DB × Option MessageRow) :=
  match db.messages.find? (fun m => m.id == id) with
  | none => .error .attributeError
  | some m =>
    let m2 := { m with
      content := form.content
      data := some (json_merge (m.data.getD []) (form.data.getD []))
      meta := some (json_merge (m.meta.getD []) (form.meta.getD []))
      updated_at := now }
    .ok ({ db with messages := update_first (fun x => x.id == id) (fun _ => m2) db.messages },
         some m2)

/-- MessageTable.update_is_pinned_by_id: same missing-row AttributeError;
pinning records actor and timestamp, unpinning clears both. -/
def update_is_pinned_by_id (db : DB) (id : String) (is_pinned : Bool)
    (pinned_by : Option String) (now : Nat) : Except RepoError (DB × Option MessageRow) :=
  match db.messages.find? (fun m => m.id == id) with
  | none => .error .attributeError
  | some m =>
    let m2 := { m with
      is_pinned := is_pinned
      pinned_at := if is_pinned then some now else none
      pinned_by := if is_pinned then pinned_by else none }
    .ok ({ db with messages := update_first (fun x => x.id == id) (fun _ => m2) db.messages },
         some m2)

/-- The `pipeline` metadata a registry entry may carry
(routers/pipelines.py reads type, pipelines and priority from it). -/
structure PipelineMeta where
  type : Option String
  pipelines : List String
  priority : Int
deriving DecidableEq, Repr

/-- One entry of the global model registry; `urlIdx` is the top-level
`filter.get("urlIdx")` key, `none` when absent or not int-parseable. -/
structure ModelEntry where
  id : String
  pipeline : Option PipelineMeta
  urlIdx : Option Nat
deriving DecidableEq, Repr

/-- Eligibility test of get_sorted_filters: the entry carries pipeline
metadata with `type == "filter"` whose pipelines list is the wildcard or
contains the target model id. -/
def eligible_filter (model_id : String) (m : ModelEntry) : Bool :=
  match m.pipeline with
  | some p => p.type == some "filter" && (p.pipelines == ["*"] || p.pipelines.contains model_id)
  | none => false

/-- Sort key `model["pipeline"]["priority"]` (eligible entries always carry
pipeline metadata). -/
def priority_of (m : ModelEntry) : Int :=
  match m.pipeline with
  | some p => p.priority
  | none => 0

/-- Ordering used by `sorted(filters, key=priority)`. -/
def priority_le (a b : ModelEntry) : Prop := priority_of a ≤ priority_of b

instance : DecidableRel priority_le := fun a b => Int.decLe (priority_of a) (priority_of b)

instance : IsTotal ModelEntry priority_le :=
  ⟨fun a b => (Int.le_total (priority_of a) (priority_of b)).elim Or.inl Or.inr⟩

instance : IsTrans ModelEntry priority_le :=
  ⟨fun _ _ _ hab hbc => Int.le_trans hab hbc⟩

/-- get_sorted_filters: eligible registry values, ascending by priority
(Python `sorted` is a stable ascending sort; dict values iterate in insertion
order). -/
def get_sorted_filters (model_id : String) (models : List (String × ModelEntry)) :
    List ModelEntry :=
  List.insertionSort priority_le ((models.map Prod.snd).filter (eligible_filter model_id))

/-- The `models[model_id]` registry access. -/
def lookup_model (models : List (String × ModelEntry)) (model_id : String) :
    Option ModelEntry :=
  (models.find? (fun kv => kv.1 == model_id)).map Prod.snd

/-- The stage sequence process_pipeline_inlet_filter iterates: sorted eligible
filters, with the target model appended when it carries pipeline metadata
(`none` when the registry lacks the model: `models[model_id]` raises). -/
def inlet_filter_sequence (model_id : String) (models : List (String × ModelEntry)) :
    Option (List ModelEntry) :=
  (lookup_model models model_id).map (fun target =>
    if target.pipeline.isSome then get_sorted_filters model_id models ++ [target]
    else get_sorted_filters model_id models)

/-- The stage sequence process_pipeline_outlet_filter iterates: the target
model prepended (when it carries pipeline metadata) to the same sorted
eligible filters. -/
def outlet_filter_sequence (model_id : String) (models : List (String × ModelEntry)) :
    Option (List ModelEntry) :=
  (lookup_model models model_id).map (fun target =>
    if target.pipeline.isSome then target :: get_sorted_filters model_id models
    else get_sorted_filters model_id models)

/-- The per-backend URL/key configuration
(`OPENAI_API_BASE_URLS` / `OPENAI_API_KEYS`). -/
structure PipelineConfig where
  urls : List String
  keys : List String
deriving DecidableEq, Repr

/-- Outcome of one stage HTTP call: connection failure, or a response with a
status code and (when the content type is JSON) a parsed body. -/
inductive StageResult where
  | transport
  | response (status : Nat) (body : Option JsonObj)
deriving DecidableEq, Repr

/-- How a filter-chain run can fail: a structured upstream error detail
surfaced to the caller, or an uncaught IndexError from the config lookup. -/
inductive ChainError where
  | upstreamDetail (status : Nat) (detail : String)
  | indexError
deriving DecidableEq, Repr

/-- The `"detail" in res` test with extraction. -/
def payload_detail (body : JsonObj) : Option String :=
  (body.find? (fun kv => kv.1 == "detail")).map Prod.snd

/-- process_pipeline_inlet_filter, lines 71-112: sequential execution over the
stage list.  An unresolvable urlIdx or empty key skips the stage; a transport
failure (or non-JSON body) is logged and the chain continues with the previous
payload; a successful JSON response replaces the payload wholesale; a non-2xx
JSON response replaces the payload with the error body and, when that body
carries a "detail" key, raises and aborts the whole chain. -/
def run_inlet_filters (cfg : PipelineConfig) (respond : String → JsonObj → StageResult) :
    List ModelEntry → JsonObj → Except ChainError JsonObj
  | [], payload => .ok payload
  | s :: rest, payload =>
    match s.urlIdx with
    | none => run_inlet_filters cfg respond rest payload
    | some idx =>
      if idx < cfg.urls.length && idx < cfg.keys.length then
        if cfg.keys.getD idx "" == "" then run_inlet_filters cfg respond rest payload
        else
          match respond s.id payload with
          | .transport => run_inlet_filters cfg respond rest payload
          | .response _ none => run_inlet_filters cfg respond rest payload
          | .response status (some body) =>
            if status < 400 then run_inlet_filters cfg respond rest body
            else
              match payload_detail body with
              | some d => .error (.upstreamDetail status d)
              | none => run_inlet_filters cfg respond rest body
      else .error .indexError

/-- process_pipeline_outlet_filter, lines 125-169: identical stage iteration,
but the structured-error branch differs: the `raise Exception(response.status,
res)` sits inside the inner `try`, whose `except Exception: pass` immediately
swallows it, so a non-2xx JSON response — detail or not — leaves the error
body as the payload and the chain continues with the next stage. -/
def run_outlet_filters (cfg : PipelineConfig) (respond : String → JsonObj → StageResult) :
    List ModelEntry → JsonObj → Except ChainError JsonObj
  | [], payload => .ok payload
  | s :: rest, payload =>
    match s.urlIdx with
    | none => run_outlet_filters cfg respond rest payload
    | some idx =>
      if idx < cfg.urls.length && idx < cfg.keys.length then
        if cfg.keys.getD idx "" == "" then run_outlet_filters cfg respond rest payload
        else
          match respond s.id payload with
          | .transport => run_outlet_filters cfg respond rest payload
          | .response _ none => run_outlet_filters cfg respond rest payload
          | .response _ (some body) => run_outlet_filters cfg respond rest body
      else .error .indexError

/-! ## General helper lemmas -/

theorem insert_new_channel_channels (db : DB) (form : CreateChannelForm)
    (user_id new_id : String) (member_id_of : String → String) (now : Nat) :
    (insert_new_channel db form user_id new_id member_id_of now).1.channels
      = db.channels ++ [(insert_new_channel db form user_id new_id member_id_of now).2] := by
  unfold insert_new_channel
  dsimp only
  split <;> rfl

theorem insert_new_channel_snd_id (db : DB) (form : CreateChannelForm)
    (user_id new_id : String) (member_id_of : String → String) (now : Nat) :
    (insert_new_channel db form user_id new_id member_id_of now).2.id = new_id := by
  unfold insert_new_channel
  dsimp only
  split <;> rfl

theorem insert_new_channel_snd_name (db : DB) (form : CreateChannelForm)
    (user_id new_id : String) (member_id_of : String → String) (now : Nat) :
    (insert_new_channel db form user_id new_id member_id_of now).2.name
      = form.name.toLower := by
  unfold insert_new_channel
  dsimp only
  split <;> rfl

/-! ## Claim C6: reaction idempotence and no-op removal -/

/-- Claim C6: for every `(messageId, userId, name)` with no pre-existing
reaction row, calling `add_reaction_to_message` twice leaves exactly one
matching reaction row — the second call changes nothing and returns the row
created by the first — and `remove_reaction_by_id_and_user_id_and_name` on a
store without the tuple is a no-op that still returns `true`. -/
theorem reaction_add_idempotent_remove_noop
    (db : DB) (mid uid name rid1 rid2 : String) (now1 now2 : Nat)
    (h : db.reactions.find? (reaction_tuple mid uid name) = none) :
    (add_reaction_to_message (add_reaction_to_message db mid uid name rid1 now1).1
        mid uid name rid2 now2).1
      = (add_reaction_to_message db mid uid name rid1 now1).1 ∧
    (add_reaction_to_message (add_reaction_to_message db mid uid name rid1 now1).1
        mid uid name rid2 now2).2
      = (add_reaction_to_message db mid uid name rid1 now1).2 ∧
    ((add_reaction_to_message (add_reaction_to_message db mid uid name rid1 now1).1
        mid uid name rid2 now2).1.reactions.countP (reaction_tuple mid uid name)) = 1 ∧
    remove_reaction_by_id_and_user_id_and_name db mid uid name = (db, true) := by
  have hr : reaction_tuple mid uid name (ReactionRow.mk rid1 uid mid name now1) = true := by
    simp [reaction_tuple]
  have h1 : add_reaction_to_message db mid uid name rid1 now1
      = ({ db with reactions := db.reactions ++ [ReactionRow.mk rid1 uid mid name now1] },
         some (ReactionRow.mk rid1 uid mid name now1)) := by
    unfold add_reaction_to_message
    rw [h]
  have hfind2 : (db.reactions ++ [ReactionRow.mk rid1 uid mid name now1]).find?
      (reaction_tuple mid uid name) = some (ReactionRow.mk rid1 uid mid name now1) := by
    rw [List.find?_append, h]
    simp [hr]
  have h2 : add_reaction_to_message (add_reaction_to_message db mid uid name rid1 now1).1
      mid uid name rid2 now2
      = ((add_reaction_to_message db mid uid name rid1 now1).1,
         some (ReactionRow.mk rid1 uid mid name now1)) := by
    rw [h1]
    unfold add_reaction_to_message
    dsimp only
    rw [hfind2]
  have hzero : db.reactions.countP (reaction_tuple mid uid name) = 0 :=
    List.countP_eq_zero.mpr (List.find?_eq_none.mp h)
  refine ⟨by rw [h2], ?_, ?_, ?_⟩
  · rw [h2, h1]
  · rw [h2, h1]
    simp [List.countP_append, hzero, hr]
  · unfold remove_reaction_by_id_and_user_id_and_name
    have hself : db.reactions.filter (fun r => !(reaction_tuple mid uid name r))
        = db.reactions := by
      apply List.filter_eq_self.mpr
      intro a ha
      simp [List.find?_eq_none.mp h a ha]
    rw [hself]

/-- Witness for C6 on a concrete store: one message, no reactions yet. -/
theorem reaction_add_idempotent_remove_noop_witness :
    (DB.mk [] [] [] [] [] []).reactions.find? (reaction_tuple "m1" "u1" "smile") = none ∧
    ((add_reaction_to_message
        (add_reaction_to_message (DB.mk [] [] [] [] [] []) "m1" "u1" "smile" "r1" 5).1
        "m1" "u1" "smile" "r2" 6).1
      = (add_reaction_to_message (DB.mk [] [] [] [] [] []) "m1" "u1" "smile" "r1" 5).1 ∧
    (add_reaction_to_message
        (add_reaction_to_message (DB.mk [] [] [] [] [] []) "m1" "u1" "smile" "r1" 5).1
        "m1" "u1" "smile" "r2" 6).2
      = (add_reaction_to_message (DB.mk [] [] [] [] [] []) "m1" "u1" "smile" "r1" 5).2 ∧
    ((add_reaction_to_message
        (add_reaction_to_message (DB.mk [] [] [] [] [] []) "m1" "u1" "smile" "r1" 5).1
        "m1" "u1" "smile" "r2" 6).1.reactions.countP (reaction_tuple "m1" "u1" "smile")) = 1 ∧
    remove_reaction_by_id_and_user_id_and_name (DB.mk [] [] [] [] [] []) "m1" "u1" "smile"
      = (DB.mk [] [] [] [] [] [], true)) :=
  ⟨by decide,
   reaction_add_idempotent_remove_noop (DB.mk [] [] [] [] [] [])
     "m1" "u1" "smile" "r1" "r2" 5 6 (by decide)⟩

/-! ## Claim C8: filter-chain failure semantics (outlet swallows the abort) -/

/-- Configuration and environment exhibiting the divergence: stage `f1`
answers 500 with a structured `detail`, stage `f2` answers 200. -/
def c8_cfg : PipelineConfig := { urls := ["u0"], keys := ["k0"] }

def c8_stage1 : ModelEntry :=
  { id := "f1"
    pipeline := some { type := some "filter", pipelines := ["*"], priority := 1 }
    urlIdx := some 0 }

def c8_stage2 : ModelEntry :=
  { id := "f2"
    pipeline := some { type := some "filter", pipelines := ["*"], priority := 2 }
    urlIdx := some 0 }

def c8_respond (sid : String) (_p : JsonObj) : StageResult :=
  if sid == "f1" then .response 500 (some [("detail", "blocked")])
  else .response 200 (some [("result", "ok")])

/-- Claim C8 (code bug, evaluated at the failing input): on the inlet chain a
stage answering a non-success status with a structured `detail` aborts the
chain and surfaces the detail, but on the outlet chain the very same response
is swallowed — the run continues into stage `f2` and ends successfully with
`f2`'s payload, instead of aborting with the structured detail as the claim
requires for both directions. -/
theorem outlet_swallows_structured_error_detail :
    run_inlet_filters c8_cfg c8_respond [c8_stage1, c8_stage2] [("model", "gpt-x")]
      = .error (.upstreamDetail 500 "blocked") ∧
    run_outlet_filters c8_cfg c8_respond [c8_stage1, c8_stage2] [("model", "gpt-x")]
      = .ok [("result", "ok")] :=
  ⟨rfl, rfl⟩

/-! ## Claim C9: repository update methods raise on a missing id -/

/-- Claim C9 (code bug, evaluated at the failing input): with no message row
for the id, `update_message_by_id` and `update_is_pinned_by_id` dereference
the `None` result of `db.get` (`message.content = ...` / `message.is_pinned =
...`) and raise AttributeError instead of returning the `None` sentinel the
claim describes. -/
theorem update_missing_message_raises :
    update_message_by_id (DB.mk [] [] [] [] [] []) "missing"
        { temp_id := none, content := "x", reply_to_id := none, parent_id := none,
          data := none, meta := none } 0
      = .error .attributeError ∧
    update_is_pinned_by_id (DB.mk [] [] [] [] [] []) "missing" true none 0
      = .error .attributeError :=
  ⟨rfl, rfl⟩

/-! ## Claim C10: creation lowercases the name, update stores it verbatim -/

/-- Claim C10: `insert_new_channel` persists the lowercased form name while
`update_channel_by_id` persists the submitted name verbatim, so creating and
then updating with the same mixed-case name stores two different names. -/
theorem create_lowercases_name_update_preserves
    (db : DB) (form : CreateChannelForm) (user_id new_id : String)
    (member_id_of : String → String) (now now2 : Nat) (uform : ChannelForm)
    (hfresh : ∀ c ∈ db.channels, c.id ≠ new_id)
    (hname : uform.name = form.name) :
    (insert_new_channel db form user_id new_id member_id_of now).2.name
      = form.name.toLower ∧
    ((update_channel_by_id (insert_new_channel db form user_id new_id member_id_of now).1
        new_id uform now2).2.map (fun c => c.name)) = some form.name ∧
    (form.name.toLower ≠ form.name →
      ((update_channel_by_id (insert_new_channel db form user_id new_id member_id_of now).1
          new_id uform now2).2.map (fun c => c.name))
        ≠ some (insert_new_channel db form user_id new_id member_id_of now).2.name) := by
  have hn := insert_new_channel_snd_name db form user_id new_id member_id_of now
  have hfind : (insert_new_channel db form user_id new_id member_id_of now).1.channels.find?
      (fun c => c.id == new_id)
      = some (insert_new_channel db form user_id new_id member_id_of now).2 := by
    rw [insert_new_channel_channels, List.find?_append]
    have hnone : db.channels.find? (fun c => c.id == new_id) = none :=
      List.find?_eq_none.mpr (fun c hc => by simp [hfresh c hc])
    rw [hnone]
    simp [insert_new_channel_snd_id]
  have hupd : (update_channel_by_id
      (insert_new_channel db form user_id new_id member_id_of now).1 new_id uform now2).2.map
        (fun c => c.name) = some uform.name := by
    unfold update_channel_by_id
    rw [hfind]
    rfl
  refine ⟨hn, by rw [hupd, hname], ?_⟩
  intro hmixed heq
  rw [hupd, hname, hn] at heq
  exact hmixed (Option.some.inj heq).symm

/-- Witness for C10: creating with name "General" stores "general"; updating
with "General" stores "General". -/
theorem create_lowercases_name_update_preserves_witness :
    (∀ c ∈ (DB.mk [] [] [] [] [] []).channels, c.id ≠ "ch1") ∧
    ({ name := "General", description := none, is_private := none, data := none,
       meta := none, access_control := none, group_ids := none,
       user_ids := none } : ChannelForm).name
      = ({ name := "General", description := none, is_private := none, data := none,
           meta := none, access_control := none, group_ids := none, user_ids := none,
           type := some "group" } : CreateChannelForm).name ∧
    ((insert_new_channel (DB.mk [] [] [] [] [] [])
        { name := "General", description := none, is_private := none, data := none,
          meta := none, access_control := none, group_ids := none, user_ids := none,
          type := some "group" } "A" "ch1" (fun u => u) 7).2.name
      = ({ name := "General", description := none, is_private := none, data := none,
           meta := none, access_control := none, group_ids := none, user_ids := none,
           type := some "group" } : CreateChannelForm).name.toLower ∧
    ((update_channel_by_id (insert_new_channel (DB.mk [] [] [] [] [] [])
        { name := "General", description := none, is_private := none, data := none,
          meta := none, access_control := none, group_ids := none, user_ids := none,
          type := some "group" } "A" "ch1" (fun u => u) 7).1
        "ch1"
        { name := "General", description := none, is_private := none, data := none,
          meta := none, access_control := none, group_ids := none, user_ids := none } 9).2.map
          (fun c => c.name))
      = some ({ name := "General", description := none, is_private := none, data := none,
                meta := none, access_control := none, group_ids := none, user_ids := none,
                type := some "group" } : CreateChannelForm).name ∧
    (({ name := "General", description := none, is_private := none, data := none,
        meta := none, access_control := none, group_ids := none, user_ids := none,
        type := some "group" } : CreateChannelForm).name.toLower
        ≠ ({ name := "General", description := none, is_private := none, data := none,
             meta := none, access_control := none, group_ids := none, user_ids := none,
             type := some "group" } : CreateChannelForm).name →
      ((update_channel_by_id (insert_new_channel (DB.mk [] [] [] [] [] [])
          { name := "General", description := none, is_private := none, data := none,
            meta := none, access_control := none, group_ids := none, user_ids := none,
            type := some "group" } "A" "ch1" (fun u => u) 7).1
          "ch1"
          { name := "General", description := none, is_private := none, data := none,
            meta := none, access_control := none, group_ids := none, user_ids := none } 9).2.map
            (fun c => c.name))
        ≠ some (insert_new_channel (DB.mk [] [] [] [] [] [])
            { name := "General", description := none, is_private := none, data := none,
              meta := none, access_control := none, group_ids := none, user_ids := none,
              type := some "group" } "A" "ch1" (fun u => u) 7).2.name)) :=
  ⟨fun c hc => by simp at hc, rfl,
   create_lowercases_name_update_preserves (DB.mk [] [] [] [] [] [])
     { name := "General", description := none, is_private := none, data := none,
       meta := none, access_control := none, group_ids := none, user_ids := none,
       type := some "group" } "A" "ch1" (fun u => u) 7 9
     { name := "General", description := none, is_private := none, data := none,
       meta := none, access_control := none, group_ids := none, user_ids := none }
     (fun c hc => by simp at hc) rfl⟩

/-! ## Claim C5: message deletion cleanup and dangling references -/

theorem get_message_by_id_after_delete (db : DB) (mid : String) (fuel : Nat) :
    get_message_by_id (delete_message_by_id db mid).1 fuel mid = none := by
  cases fuel with
  | zero => rfl
  | succ fuel =>
    unfold get_message_by_id
    have hnone : (delete_message_by_id db mid).1.messages.find? (fun m => m.id == mid)
        = none := by
      apply List.find?_eq_none.mpr
      intro x hx
      have hx2 := (List.mem_filter.mp hx).2
      simp at hx2
      simp [hx2]
    rw [hnone]

/-- Claim C5: after `delete_message_by_id m.id`, looking the id up yields
`none`, no reaction row referencing the id remains, replies are not cascaded
(every other message row survives), and a lookup of a surviving message whose
`reply_to_id` dangles at the deleted id still succeeds, resolving the
reference to `none` instead of failing. -/
theorem delete_message_cleanup (db : DB) (mid cid : String) (fuel : Nat) (child : MessageRow)
    (hchild : (delete_message_by_id db mid).1.messages.find? (fun m => m.id == cid)
        = some child)
    (hdangling : child.reply_to_id = some mid) :
    get_message_by_id (delete_message_by_id db mid).1 fuel mid = none ∧
    (∀ r ∈ (delete_message_by_id db mid).1.reactions, r.message_id ≠ mid) ∧
    (∀ m ∈ db.messages, m.id ≠ mid → m ∈ (delete_message_by_id db mid).1.messages) ∧
    ((get_message_by_id (delete_message_by_id db mid).1 (fuel+1) cid).map
        (fun r => r.reply_to_message)) = some none := by
  refine ⟨get_message_by_id_after_delete db mid fuel, ?_, ?_, ?_⟩
  · intro r hr
    have hr2 := (List.mem_filter.mp hr).2
    simpa using hr2
  · intro m hm hne
    apply List.mem_filter.mpr
    refine ⟨hm, ?_⟩
    simpa using hne
  · unfold get_message_by_id
    rw [hchild]
    dsimp only
    rw [hdangling]
    simp [get_message_by_id_after_delete db mid fuel]

def c5_parent : MessageRow :=
  { id := "m0", user_id := "A", channel_id := some "ch", reply_to_id := none,
    parent_id := none, is_pinned := false, pinned_at := none, pinned_by := none,
    content := "hi", data := none, meta := none, created_at := 1, updated_at := 1 }

def c5_child : MessageRow :=
  { id := "m1", user_id := "B", channel_id := some "ch", reply_to_id := some "m0",
    parent_id := none, is_pinned := false, pinned_at := none, pinned_by := none,
    content := "re", data := none, meta := none, created_at := 2, updated_at := 2 }

def c5_db : DB :=
  { channels := [], members := [], messages := [c5_parent, c5_child],
    reactions := [ReactionRow.mk "r1" "A" "m0" "smile" 3], users := [], groups := [] }

/-- Witness for C5: deleting `m0` (which has a reaction and is quoted by
`m1`) on a concrete store. -/
theorem delete_message_cleanup_witness :
    ((delete_message_by_id c5_db "m0").1.messages.find? (fun m => m.id == "m1")
        = some c5_child) ∧
    (c5_child.reply_to_id = some "m0") ∧
    (get_message_by_id (delete_message_by_id c5_db "m0").1 1 "m0" = none ∧
    (∀ r ∈ (delete_message_by_id c5_db "m0").1.reactions, r.message_id ≠ "m0") ∧
    (∀ m ∈ c5_db.messages, m.id ≠ "m0" →
        m ∈ (delete_message_by_id c5_db "m0").1.messages) ∧
    ((get_message_by_id (delete_message_by_id c5_db "m0").1 2 "m1").map
        (fun r => r.reply_to_message)) = some none) :=
  ⟨by decide, by decide,
   delete_message_cleanup c5_db "m0" "m1" 1 c5_child (by decide) (by decide)⟩

/-! ## Claim C4: thread listing pagination and parent inclusion -/

theorem thread_page_mem_parent_id (db : DB) (cid pid : String) (skip limit : Nat)
    (m : MessageRow) (hm : m ∈ thread_page db cid pid skip limit) :
    m.parent_id = some pid := by
  unfold thread_page at hm
  have h1 := List.mem_of_mem_take hm
  have h2 := List.mem_of_mem_drop h1
  have h3 := ((List.perm_insertionSort created_desc _).mem_iff).mp h2
  have h4 := (List.mem_filter.mp h3).2
  simp [Bool.and_eq_true] at h4
  exact h4.2

theorem thread_page_length_le (db : DB) (cid pid : String) (skip limit : Nat) :
    (thread_page db cid pid skip limit).length ≤ limit := by
  unfold thread_page
  rw [List.length_take]
  exact min_le_left _ _

theorem map_message_enrich (db : DB) (fuel : Nat) (l : List MessageRow) :
    (l.map (fun m =>
      ({ message := m
         user := none
         reply_to_message :=
           (m.reply_to_id.bind (get_message_by_id db fuel)).map to_message_user_response }
        : MessageReplyToResponse))).map (fun r => r.message) = l := by
  induction l with
  | nil => rfl
  | cons x xs ih =>
    simp only [List.map_cons] at ih ⊢
    rw [ih]

/-- Claim C4: for an existing parent message and any `skip` and `limit`,
`get_messages_by_parent_id` returns at most `limit + 1` items, and the parent
row itself appears in the result exactly when the reply page holds strictly
fewer than `limit` replies. -/
theorem thread_listing_parent_inclusion (db : DB) (fuel : Nat) (cid pid : String)
    (skip limit : Nat) (parent : MessageRow)
    (hfind : db.messages.find? (fun m => m.id == pid) = some parent)
    (hself : parent.parent_id ≠ some pid) :
    (get_messages_by_parent_id db fuel cid pid skip limit).length ≤ limit + 1 ∧
    (parent ∈ (get_messages_by_parent_id db fuel cid pid skip limit).map (fun r => r.message)
      ↔ (thread_page db cid pid skip limit).length < limit) := by
  unfold get_messages_by_parent_id
  rw [hfind]
  dsimp only
  rw [map_message_enrich]
  by_cases hlt : (thread_page db cid pid skip limit).length < limit
  · rw [if_pos hlt]
    constructor
    · rw [List.length_map, List.length_append]
      simp only [List.length_singleton]
      omega
    · constructor
      · intro _
        exact hlt
      · intro _
        exact List.mem_append.mpr (Or.inr (List.mem_singleton.mpr rfl))
  · rw [if_neg hlt]
    constructor
    · rw [List.length_map]
      have := thread_page_length_le db cid pid skip limit
      omega
    · constructor
      · intro hmem
        exact absurd (thread_page_mem_parent_id db cid pid skip limit parent hmem) hself
      · intro hcount
        exact absurd hcount hlt
  -- NOTE: rw [map_message_enrich] above rewrites both branches at once

def c4_parent : MessageRow :=
  { id := "p", user_id := "A", channel_id := some "ch", reply_to_id := none,
    parent_id := none, is_pinned := false, pinned_at := none, pinned_by := none,
    content := "root", data := none, meta := none, created_at := 1, updated_at := 1 }

def c4_reply1 : MessageRow :=
  { id := "r1", user_id := "B", channel_id := some "ch", reply_to_id := none,
    parent_id := some "p", is_pinned := false, pinned_at := none, pinned_by := none,
    content := "one", data := none, meta := none, created_at := 2, updated_at := 2 }

def c4_reply2 : MessageRow :=
  { id := "r2", user_id := "C", channel_id := some "ch", reply_to_id := none,
    parent_id := some "p", is_pinned := false, pinned_at := none, pinned_by := none,
    content := "two", data := none, meta := none, created_at := 3, updated_at := 3 }

def c4_db : DB :=
  { channels := [], members := [], messages := [c4_parent, c4_reply1, c4_reply2],
    reactions := [], users := [], groups := [] }

/-- Witness for C4 on a concrete thread with two replies and `limit = 5`. -/
theorem thread_listing_parent_inclusion_witness :
    (c4_db.messages.find? (fun m => m.id == "p") = some c4_parent) ∧
    (c4_parent.parent_id ≠ some "p") ∧
    ((get_messages_by_parent_id c4_db 1 "ch" "p" 0 5).length ≤ 5 + 1 ∧
    (c4_parent ∈ (get_messages_by_parent_id c4_db 1 "ch" "p" 0 5).map (fun r => r.message)
      ↔ (thread_page c4_db "ch" "p" 0 5).length < 5)) :=
  ⟨by decide, by decide,
   thread_listing_parent_inclusion c4_db 1 "ch" "p" 0 5 c4_parent (by decide) (by decide)⟩

/-! ## Claim C3: membership rows created with a group/dm channel -/

theorem create_membership_models_user_ids (cid ib : String) (users : List String)
    (f : String → String) (now : Nat) :
    (create_membership_models cid ib users f now).map (fun m => m.user_id) = users := by
  induction users with
  | nil => rfl
  | cons u us ih =>
    simp only [create_membership_models, List.map_cons] at ih ⊢
    rw [ih]

theorem insert_new_channel_members_group_dm (db : DB) (form : CreateChannelForm)
    (user_id new_id : String) (member_id_of : String → String) (now : Nat)
    (h : form.type = some "group" ∨ form.type = some "dm") :
    (insert_new_channel db form user_id new_id member_id_of now).1.members
      = db.members ++ create_membership_models new_id user_id
          (collect_unique_user_ids db user_id form.user_ids form.group_ids)
          member_id_of now := by
  have hcond : (form.type == some "group" || form.type == some "dm") = true := by
    rcases h with h | h <;> simp [h]
  unfold insert_new_channel
  dsimp only
  rw [hcond]
  rfl

/-- Claim C3: creating a `group`/`dm` channel adds exactly one membership row
per user in `{owner} ∪ form.user_ids ∪ (members of each group in
form.group_ids)` — no duplicates, membership exactly over that union — each
row with `status = "joined"` and `is_active = true`, while the pre-existing
rows are untouched. -/
theorem group_dm_creation_membership_rows
    (db : DB) (form : CreateChannelForm) (user_id new_id : String)
    (member_id_of : String → String) (now : Nat)
    (h : form.type = some "group" ∨ form.type = some "dm") :
    ((insert_new_channel db form user_id new_id member_id_of now).1.members.take
        db.members.length) = db.members ∧
    ((((insert_new_channel db form user_id new_id member_id_of now).1.members.drop
        db.members.length).map (fun m => m.user_id)).Nodup) ∧
    (∀ u : String,
      u ∈ ((insert_new_channel db form user_id new_id member_id_of now).1.members.drop
            db.members.length).map (fun m => m.user_id)
        ↔ (u = user_id ∨ u ∈ form.user_ids.getD [] ∨
            ∃ gid ∈ form.group_ids.getD [], u ∈ groups_get_group_user_ids_by_id db gid)) ∧
    (∀ m ∈ (insert_new_channel db form user_id new_id member_id_of now).1.members.drop
        db.members.length, m.status = some "joined" ∧ m.is_active = true) := by
  rw [insert_new_channel_members_group_dm db form user_id new_id member_id_of now h,
    List.take_left, List.drop_left, create_membership_models_user_ids]
  refine ⟨rfl, List.nodup_dedup _, ?_, ?_⟩
  · intro u
    unfold collect_unique_user_ids
    rw [List.mem_dedup]
    simp only [List.mem_append, List.mem_singleton, List.mem_flatten, List.mem_map]
    constructor
    · rintro ((hu | hu) | ⟨l, ⟨gid, hgid, rfl⟩, hul⟩)
      · exact Or.inr (Or.inl hu)
      · exact Or.inl hu
      · exact Or.inr (Or.inr ⟨gid, hgid, hul⟩)
    · rintro (rfl | hu | ⟨gid, hgid, hul⟩)
      · exact Or.inl (Or.inr rfl)
      · exact Or.inl (Or.inl hu)
      · exact Or.inr ⟨_, ⟨gid, hgid, rfl⟩, hul⟩
  · intro m hm
    obtain ⟨uid, -, rfl⟩ := List.mem_map.mp hm
    exact ⟨rfl, rfl⟩

def c3_form : CreateChannelForm :=
  { name := "team", description := none, is_private := none, data := none, meta := none,
    access_control := none, group_ids := none, user_ids := some ["B", "C"],
    type := some "group" }

/-- Witness for C3: user A creates a `group` channel with `user_ids = [B, C]`
on an empty store; exactly three membership rows (A, B, C) result. -/
theorem group_dm_creation_membership_rows_witness :
    (c3_form.type = some "group" ∨ c3_form.type = some "dm") ∧
    (((insert_new_channel (DB.mk [] [] [] [] [] []) c3_form "A" "ch1" (fun u => u) 7).1.members.take
        (DB.mk [] [] [] [] [] []).members.length) = (DB.mk [] [] [] [] [] []).members ∧
    ((((insert_new_channel (DB.mk [] [] [] [] [] []) c3_form "A" "ch1" (fun u => u) 7).1.members.drop
        (DB.mk [] [] [] [] [] []).members.length).map (fun m => m.user_id)).Nodup) ∧
    (∀ u : String,
      u ∈ ((insert_new_channel (DB.mk [] [] [] [] [] []) c3_form "A" "ch1" (fun u => u) 7).1.members.drop
            (DB.mk [] [] [] [] [] []).members.length).map (fun m => m.user_id)
        ↔ (u = "A" ∨ u ∈ c3_form.user_ids.getD [] ∨
            ∃ gid ∈ c3_form.group_ids.getD [],
              u ∈ groups_get_group_user_ids_by_id (DB.mk [] [] [] [] [] []) gid)) ∧
    (∀ m ∈ (insert_new_channel (DB.mk [] [] [] [] [] []) c3_form "A" "ch1" (fun u => u) 7).1.members.drop
        (DB.mk [] [] [] [] [] []).members.length,
      m.status = some "joined" ∧ m.is_active = true)) ∧
    ((insert_new_channel (DB.mk [] [] [] [] [] []) c3_form "A" "ch1" (fun u => u) 7).1.members.drop
        (DB.mk [] [] [] [] [] []).members.length).length = 3 :=
  ⟨Or.inl rfl,
   group_dm_creation_membership_rows (DB.mk [] [] [] [] [] []) c3_form "A" "ch1"
     (fun u => u) 7 (Or.inl rfl),
   by decide⟩

/-! ## Claim C7: filter-chain stage ordering -/

/-- Claim C7: when the registry holds the target model and it carries
pipeline metadata, the inlet chain iterates the eligible filters sorted
ascending by priority with the target appended last, and the outlet chain
iterates the target first followed by the same ascending-priority filters;
the sorted filter list is a permutation of exactly the eligible registry
entries. -/
theorem filter_chain_order (model_id : String) (models : List (String × ModelEntry))
    (target : ModelEntry)
    (hlookup : lookup_model models model_id = some target)
    (hpipe : target.pipeline.isSome = true) :
    inlet_filter_sequence model_id models
      = some (get_sorted_filters model_id models ++ [target]) ∧
    outlet_filter_sequence model_id models
      = some (target :: get_sorted_filters model_id models) ∧
    List.Sorted priority_le (get_sorted_filters model_id models) ∧
    (get_sorted_filters model_id models).Perm
      ((models.map Prod.snd).filter (eligible_filter model_id)) := by
  refine ⟨?_, ?_, List.sorted_insertionSort priority_le _, List.perm_insertionSort priority_le _⟩
  · unfold inlet_filter_sequence
    rw [hlookup]
    simp [hpipe]
  · unfold outlet_filter_sequence
    rw [hlookup]
    simp [hpipe]

def c7_filter_p2 : ModelEntry :=
  { id := "flt2"
    pipeline := some { type := some "filter", pipelines := ["*"], priority := 2 }
    urlIdx := some 0 }

def c7_filter_p1 : ModelEntry :=
  { id := "flt1"
    pipeline := some { type := some "filter", pipelines := ["*"], priority := 1 }
    urlIdx := some 0 }

def c7_target : ModelEntry :=
  { id := "gpt-x"
    pipeline := some { type := some "pipe", pipelines := [], priority := 0 }
    urlIdx := some 0 }

def c7_models : List (String × ModelEntry) :=
  [("flt2", c7_filter_p2), ("flt1", c7_filter_p1), ("gpt-x", c7_target)]

/-- Witness for C7: two wildcard filters with priorities 2 and 1 (listed in
that order) and target `gpt-x` carrying its own pipeline metadata; the inlet
order is filter(1), filter(2), self and the outlet order is self, filter(1),
filter(2). -/
theorem filter_chain_order_witness :
    (lookup_model c7_models "gpt-x" = some c7_target) ∧
    (c7_target.pipeline.isSome = true) ∧
    (inlet_filter_sequence "gpt-x" c7_models
      = some (get_sorted_filters "gpt-x" c7_models ++ [c7_target]) ∧
    outlet_filter_sequence "gpt-x" c7_models
      = some (c7_target :: get_sorted_filters "gpt-x" c7_models) ∧
    List.Sorted priority_le (get_sorted_filters "gpt-x" c7_models) ∧
    (get_sorted_filters "gpt-x" c7_models).Perm
      ((c7_models.map Prod.snd).filter (eligible_filter "gpt-x"))) ∧
    inlet_filter_sequence "gpt-x" c7_models
      = some [c7_filter_p1, c7_filter_p2, c7_target] ∧
    outlet_filter_sequence "gpt-x" c7_models
      = some [c7_target, c7_filter_p1, c7_filter_p2] :=
  ⟨by decide, by decide,
   filter_chain_order "gpt-x" c7_models c7_target (by decide) (by decide),
   by decide, by decide⟩

/-! ## Claim C2: listing visible channels -/

def c2_channel : ChannelRow :=
  { id := "c1", user_id := "owner", type := some "group", name := "grp",
    description := none, is_private := none, data := none, meta := none,
    access_control := none, created_at := 0, updated_at := 0, updated_by := none,
    archived_at := none, archived_by := none, deleted_at := none, deleted_by := none }

def c2_member : ChannelMemberRow :=
  { id := "m1", channel_id := "c1", user_id := "u1", role := none, status := some "left",
    is_active := false, is_channel_muted := false, is_channel_pinned := false,
    data := none, meta := none, invited_at := none, invited_by := none,
    joined_at := some 0, left_at := some 1, last_read_at := none, created_at := some 0,
    updated_at := some 0 }

def c2_db : DB :=
  { channels := [c2_channel], members := [c2_member], messages := [], reactions := [],
    users := [], groups := [] }

/-- Claim C2 counterexample: user `u1` has a membership row (inactive, having
left) in the live group channel `c1`, yet `get_channels_by_user_id` returns
nothing — contradicting the claim that group/dm channels are listed for any
membership row regardless of whether it is active or inactive. -/
theorem inactive_membership_channel_not_listed :
    c2_channel ∈ c2_db.channels ∧ c2_channel.type = some "group" ∧
    c2_channel.deleted_at = none ∧ c2_channel.archived_at = none ∧
    c2_member ∈ c2_db.members ∧ c2_member.channel_id = c2_channel.id ∧
    c2_member.user_id = "u1" ∧ c2_member.is_active = false ∧
    get_channels_by_user_id c2_db "u1" = [] := by
  decide

/-- Claim C2 (amended): the visible channels of `u` are exactly the union of
(a) the non-deleted, non-archived `group`/`dm` channels in which `u` has an
ACTIVE membership row, and (b) the non-deleted, non-archived channels of
other types passing the access check (public document, channel ownership, or
one of `u`'s groups occurring in the per-permission group-id allowlist). -/
theorem visible_channels_characterization (db : DB) (uid : String) (c : ChannelRow) :
    c ∈ get_channels_by_user_id db uid ↔
      (c ∈ db.channels ∧ c.deleted_at = none ∧ c.archived_at = none ∧
        (((c.type = some "group" ∨ c.type = some "dm") ∧
           ∃ m ∈ db.members, m.channel_id = c.id ∧ m.user_id = uid ∧ m.is_active = true) ∨
         ((c.type = none ∨ c.type = some "" ∨
             (c.type ≠ some "group" ∧ c.type ≠ some "dm")) ∧
          (c.access_control = none ∨ c.user_id = uid ∨
            ∃ g ∈ db.groups, uid ∈ g.user_ids ∧
              g.id ∈ ac_permission_group_ids c.access_control "read")))) := by
  unfold get_channels_by_user_id has_channel_permission groups_get_groups_by_member_id
  simp only [List.mem_append, List.mem_filter, Bool.and_eq_true, Bool.or_eq_true,
    beq_iff_eq, bne_iff_ne, Option.isNone_iff_eq_none, List.any_eq_true, List.mem_map,
    Option.isNone_some, Bool.false_and, if_false, List.contains, List.elem_iff,
    Bool.ite_eq_true_distrib, decide_eq_true_eq]
  constructor
  · rintro (⟨hc, ⟨⟨hd, ha⟩, htype⟩, m, hm, ⟨hcid, huid⟩, hact⟩ |
            ⟨hc, ⟨⟨hd, ha⟩, htype⟩, hperm⟩)
    · exact ⟨hc, hd, ha, Or.inl ⟨htype, m, hm, hcid, huid, hact⟩⟩
    · refine ⟨hc, hd, ha, Or.inr ⟨?_, ?_⟩⟩
      · tauto
      · rw [if_neg (by simp)] at hperm
        rcases hperm with (hpub | hown) | ⟨gid, ⟨g, ⟨hg, hgu⟩, rfl⟩, hgin⟩
        · exact Or.inl hpub
        · exact Or.inr (Or.inl hown)
        · exact Or.inr (Or.inr ⟨g, hg, hgu, hgin⟩)
  · rintro ⟨hc, hd, ha, (⟨htype, m, hm, hcid, huid, hact⟩ | ⟨htype, hperm⟩)⟩
    · exact Or.inl ⟨hc, ⟨⟨hd, ha⟩, htype⟩, m, hm, ⟨hcid, huid⟩, hact⟩
    · refine Or.inr ⟨hc, ⟨⟨hd, ha⟩, ?_⟩, ?_⟩
      · tauto
      · rw [if_neg (by simp)]
        rcases hperm with hpub | hown | ⟨g, hg, hgu, hgin⟩
        · exact Or.inl (Or.inl hpub)
        · exact Or.inl (Or.inr hown)
        · exact Or.inr ⟨g.id, ⟨g, ⟨hg, hgu⟩, rfl⟩, hgin⟩

/-! ## Claim C1: DM channel lookup and creation idempotence -/

theorem channel_member_user_ids_nodup (db : DB)
    (h : (db.members.map (fun m => (m.channel_id, m.user_id))).Nodup) (cid : String) :
    ((channel_member_rows db cid).map (fun m => m.user_id)).Nodup := by
  have hsub : (channel_member_rows db cid).Sublist db.members := List.filter_sublist _
  have hpairs : ((channel_member_rows db cid).map
      (fun m => (m.channel_id, m.user_id))).Nodup :=
    (hsub.map _).nodup h
  have hrows : (channel_member_rows db cid).Nodup := List.Nodup.of_map _ hpairs
  apply hrows.map_on
  intro x hx y hy hxy
  have hxc : x.channel_id = cid := by
    have := (List.mem_filter.mp hx).2
    simpa using this
  have hyc : y.channel_id = cid := by
    have := (List.mem_filter.mp hy).2
    simpa using this
  exact List.inj_on_of_nodup_map hpairs hx hy (by simp [hxc, hyc, hxy])

theorem dm_member_condition_iff (db : DB) (uniq : List String) (c : ChannelRow)
    (hnodupRows : ((channel_member_rows db c.id).map (fun m => m.user_id)).Nodup) :
    dm_member_condition db uniq c = true
      ↔ (channel_member_rows db c.id ≠ [] ∧
         ((channel_member_rows db c.id).map (fun m => m.user_id)).Perm uniq) := by
  unfold dm_member_condition
  simp only [Bool.and_eq_true, beq_iff_eq, Bool.not_eq_true']
  constructor
  · rintro ⟨⟨hne, hlen⟩, hcount⟩
    have hne2 : channel_member_rows db c.id ≠ [] := by
      intro h0
      rw [h0] at hne
      simp at hne
    refine ⟨hne2, ?_⟩
    have hall : ∀ m ∈ channel_member_rows db c.id, uniq.contains m.user_id = true := by
      have := List.countP_eq_length.mp (by rw [hcount, ← hlen])
      simpa using this
    have hsubset : ((channel_member_rows db c.id).map (fun m => m.user_id)) ⊆ uniq := by
      intro x hx
      obtain ⟨m, hm, rfl⟩ := List.mem_map.mp hx
      have := hall m hm
      simpa [List.contains, List.elem_iff] using this
    have hsp := List.subperm_of_subset hnodupRows hsubset
    apply hsp.perm_of_length_le
    rw [List.length_map]
    omega
  · rintro ⟨hne, hperm⟩
    have hlen : (channel_member_rows db c.id).length = uniq.length := by
      have := hperm.length_eq
      rwa [List.length_map] at this
    have hne2 : (channel_member_rows db c.id).isEmpty = false := by
      cases hrows : channel_member_rows db c.id with
      | nil => exact absurd hrows hne
      | cons a l => rfl
    refine ⟨⟨hne2, hlen⟩, ?_⟩
    rw [← hlen]
    apply List.countP_eq_length.mpr
    intro m hm
    have hx : m.user_id ∈ uniq :=
      hperm.subset (List.mem_map.mpr ⟨m, hm, rfl⟩)
    simpa [List.contains, List.elem_iff] using hx

theorem update_member_active_status_channels (db : DB) (cid uid : String) (b : Bool)
    (now : Nat) : (update_member_active_status db cid uid b now).1.channels
      = db.channels := by
  unfold update_member_active_status
  split <;> rfl

/-- Claim C1: if `c` is the unique `dm` channel whose membership user set is
exactly the given set (same cardinality and members), then looking that set
up with `get_dm_channel_by_user_ids` returns `c`, and a second create-DM
request naming the same member set returns `c` itself — reactivating the
caller's membership — without adding any channel row.  The hypotheses also
carry the one-membership-row-per-(channel,user) invariant the grouped SQL
relies on. -/
theorem dm_lookup_and_create_idempotent
    (db : DB) (c : ChannelRow) (user_id : String) (us : List String)
    (form : CreateChannelForm) (new_id : String) (member_id_of : String → String)
    (now : Nat)
    (hinv : (db.members.map (fun m => (m.channel_id, m.user_id))).Nodup)
    (hc : c ∈ db.channels) (hdm : c.type = some "dm")
    (hmem : ((channel_member_rows db c.id).map (fun m => m.user_id)).Perm
        ((user_id :: us).dedup))
    (huniq : ∀ c2 ∈ db.channels, c2.type = some "dm" →
        ((channel_member_rows db c2.id).map (fun m => m.user_id)).Perm
          ((user_id :: us).dedup) → c2 = c)
    (hform : form.type = some "dm") (hus : form.user_ids = some us) :
    get_dm_channel_by_user_ids db (user_id :: us) = some c ∧
    ∃ db2, create_new_channel_request db user_id form new_id member_id_of now
        = .ok (db2, c) ∧ db2.channels = db.channels := by
  have hne : channel_member_rows db c.id ≠ [] := by
    intro h0
    have hlen := hmem.length_eq
    rw [h0] at hlen
    simp only [List.map_nil, List.length_nil] at hlen
    have hd0 : (user_id :: us).dedup = [] := List.length_eq_zero.mp hlen.symm
    have huid : user_id ∈ (user_id :: us).dedup :=
      List.mem_dedup.mpr (List.mem_cons_self _ _)
    rw [hd0] at huid
    exact List.not_mem_nil _ huid
  have hpred : (fun x => dm_member_condition db ((user_id :: us).dedup) x
      && x.type == some "dm") c = true := by
    have hcond := (dm_member_condition_iff db ((user_id :: us).dedup) c
      (channel_member_user_ids_nodup db hinv c.id)).mpr ⟨hne, hmem⟩
    simp [hcond, hdm]
  have hlookup : get_dm_channel_by_user_ids db (user_id :: us) = some c := by
    unfold get_dm_channel_by_user_ids
    cases hfind : db.channels.find? (fun x => dm_member_condition db
        ((user_id :: us).dedup) x && x.type == some "dm") with
    | none =>
      exact absurd hpred (List.find?_eq_none.mp hfind c hc)
    | some x =>
      have hx := List.find?_some hfind
      have hxmem := List.mem_of_find?_eq_some hfind
      simp only [Bool.and_eq_true, beq_iff_eq] at hx
      have hxperm := (dm_member_condition_iff db ((user_id :: us).dedup) x
        (channel_member_user_ids_nodup db hinv x.id)).mp hx.1
      rw [huniq x hxmem hx.2 hxperm.2]
  refine ⟨hlookup, ?_⟩
  refine ⟨(update_member_active_status db c.id user_id true now).1, ?_,
    update_member_active_status_channels db c.id user_id true now⟩
  unfold create_new_channel_request
  have hcond : (form.type == some "dm") = true := by
    rw [hform]
    exact beq_self_eq_true _
  rw [if_pos hcond, hus]
  dsimp only
  rw [hlookup]

def c1_channel : ChannelRow :=
  { id := "dm1", user_id := "alice", type := some "dm", name := "",
    description := none, is_private := none, data := none, meta := none,
    access_control := none, created_at := 0, updated_at := 0, updated_by := none,
    archived_at := none, archived_by := none, deleted_at := none, deleted_by := none }

def c1_member_alice : ChannelMemberRow :=
  { id := "ma", channel_id := "dm1", user_id := "alice", role := none,
    status := some "joined", is_active := true, is_channel_muted := false,
    is_channel_pinned := false, data := none, meta := none, invited_at := none,
    invited_by := none, joined_at := some 0, left_at := none, last_read_at := none,
    created_at := some 0, updated_at := some 0 }

def c1_member_bob : ChannelMemberRow :=
  { id := "mb", channel_id := "dm1", user_id := "bob", role := none,
    status := some "joined", is_active := true, is_channel_muted := false,
    is_channel_pinned := false, data := none, meta := none, invited_at := none,
    invited_by := none, joined_at := some 0, left_at := none, last_read_at := none,
    created_at := some 0, updated_at := some 0 }

def c1_db : DB :=
  { channels := [c1_channel], members := [c1_member_alice, c1_member_bob],
    messages := [], reactions := [], users := [], groups := [] }

def c1_form : CreateChannelForm :=
  { name := "", description := none, is_private := none, data := none, meta := none,
    access_control := none, group_ids := none, user_ids := some ["bob"],
    type := some "dm" }

/-- Witness for C1: the dm channel of `alice` and `bob` on a concrete store,
looked up and re-created by `alice`. -/
theorem dm_lookup_and_create_idempotent_witness :
    ((c1_db.members.map (fun m => (m.channel_id, m.user_id))).Nodup) ∧
    (c1_channel ∈ c1_db.channels) ∧ (c1_channel.type = some "dm") ∧
    (((channel_member_rows c1_db c1_channel.id).map (fun m => m.user_id)).Perm
        (("alice" :: ["bob"]).dedup)) ∧
    (∀ c2 ∈ c1_db.channels, c2.type = some "dm" →
        ((channel_member_rows c1_db c2.id).map (fun m => m.user_id)).Perm
          (("alice" :: ["bob"]).dedup) → c2 = c1_channel) ∧
    (c1_form.type = some "dm") ∧ (c1_form.user_ids = some ["bob"]) ∧
    (get_dm_channel_by_user_ids c1_db ("alice" :: ["bob"]) = some c1_channel ∧
    ∃ db2, create_new_channel_request c1_db "alice" c1_form "fresh" (fun u => u) 9
        = .ok (db2, c1_channel) ∧ db2.channels = c1_db.channels) :=
  ⟨by decide, by decide, by decide, by decide, by decide, by decide, by decide,
   dm_lookup_and_create_idempotent c1_db c1_channel "alice" ["bob"] c1_form "fresh"
     (fun u => u) 9 (by decide) (by decide) (by decide) (by decide) (by decide)
     (by decide) (by decide)⟩
